import Mathlib

/-!
Verification of tos/platforms/exp5438_2520/platform_message.h.

The header declares three platform-neutral packet types by composing
collaborator types (from Serial.h and CC2520Radio.h, external to the file):

  typedef union message_header { cc2520packet_header_t cc2520; serial_header_t serial; } message_header_t;
  typedef union message_footer { cc2520packet_footer_t cc2520; } message_footer_t;
  typedef struct message_metadata {
    union { cc2520_metadata_t cc2520_meta; serial_metadata_t serial_meta; };
  #ifdef LOW_POWER_LISTENING
    lpl_metadata_t lpl_meta;
  #endif
    timestamp_metadata_t ts_meta;
  #ifdef PACKET_LINK
    link_metadata_t link_meta;
  #endif
    flags_metadata_t flags_meta;
  } message_metadata_t;

We embed the file at three levels:
1. a deep embedding of its C type declarations (field lists plus a size
   calculus: a union is as large as its largest member, a struct as large
   as the sum of its members; we use the minimal, padding-free layout,
   which lower-bounds every conforming C layout);
2. a value-level shallow embedding of the declared types, parameterised by
   the external collaborator types, where an untagged union is modelled as
   storage remembering the last member written;
3. a preprocessor model of the PLATFORM_MESSAGE_H include guard and of the
   LOW_POWER_LISTENING / PACKET_LINK feature flags.
-/

/-! ## Level 1: deep embedding of the C declarations -/

mutual
/-- Syntax of the C types appearing in the header: a named external
(collaborator) type, a union, or a struct. -/
inductive CTy : Type where
  | prim : String → CTy
  | union : CFields → CTy
  | struct : CFields → CTy

/-- A list of named members of a union or struct (an anonymous member has
the empty name, as the anonymous union inside message_metadata does). -/
inductive CFields : Type where
  | nil : CFields
  | cons : String → CTy → CFields → CFields
end

mutual
/-- Size of a C type in the minimal (padding-free) layout, given the sizes
of the external collaborator types: a union is as large as its largest
member, a struct as large as the sum of its members. Any conforming C
layout is at least this large. -/
def sizeC (env : String → Nat) : CTy → Nat
  | .prim n => env n
  | .union fs => sizeMaxC env fs
  | .struct fs => sizeSumC env fs

/-- Maximum of the member sizes of a field list (size of a union). -/
def sizeMaxC (env : String → Nat) : CFields → Nat
  | .nil => 0
  | .cons _ t fs => Nat.max (sizeC env t) (sizeMaxC env fs)

/-- Sum of the member sizes of a field list (size of a packed struct). -/
def sizeSumC (env : String → Nat) : CFields → Nat
  | .nil => 0
  | .cons _ t fs => sizeC env t + sizeSumC env fs
end

/-- The member names of a field list, in declaration order. -/
def CFields.names : CFields → List String
  | .nil => []
  | .cons n _ fs => n :: fs.names

/-- The member names of a union or struct (a prim has none). -/
def CTy.memberNames : CTy → List String
  | .prim _ => []
  | .union fs => fs.names
  | .struct fs => fs.names

/-- Number of members of a field list. -/
def CFields.length : CFields → Nat
  | .nil => 0
  | .cons _ _ fs => fs.length + 1

/-- typedef union message_header { cc2520packet_header_t cc2520; serial_header_t serial; } -/
def message_header_ty : CTy :=
  .union (.cons "cc2520" (.prim "cc2520packet_header_t")
    (.cons "serial" (.prim "serial_header_t") .nil))

/-- typedef union message_footer { cc2520packet_footer_t cc2520; } -/
def message_footer_ty : CTy :=
  .union (.cons "cc2520" (.prim "cc2520packet_footer_t") .nil)

/-- The anonymous union inside message_metadata:
union { cc2520_metadata_t cc2520_meta; serial_metadata_t serial_meta; } -/
def meta_union_ty : CTy :=
  .union (.cons "cc2520_meta" (.prim "cc2520_metadata_t")
    (.cons "serial_meta" (.prim "serial_metadata_t") .nil))

/-- A member present only when its feature flag is defined, mirroring an
#ifdef FLAG ... #endif block around a single member. -/
def consIf (flag : Bool) (n : String) (t : CTy) (rest : CFields) : CFields :=
  if flag then .cons n t rest else rest

/-- typedef struct message_metadata { ... }, as a function of whether
LOW_POWER_LISTENING and PACKET_LINK are defined. The member order follows
the source: anonymous union, (lpl_meta), ts_meta, (link_meta), flags_meta. -/
def message_metadata_ty (lowPowerListening packetLink : Bool) : CTy :=
  .struct (.cons "" meta_union_ty
    (consIf lowPowerListening "lpl_meta" (.prim "lpl_metadata_t")
      (.cons "ts_meta" (.prim "timestamp_metadata_t")
        (consIf packetLink "link_meta" (.prim "link_metadata_t")
          (.cons "flags_meta" (.prim "flags_metadata_t") .nil)))))

/-- A top-level declaration of the file: the header only ever declares
typedefs, but C files in general may also define functions or objects with
state, so the embedding distinguishes the three. -/
inductive CDecl : Type where
  | typeAlias : String → CTy → CDecl
  | funDef : String → CDecl
  | varDef : String → CDecl

/-- Whether a declaration is a typedef (as opposed to a function or a
mutable object definition). -/
def CDecl.isTypeAlias : CDecl → Bool
  | .typeAlias _ _ => true
  | .funDef _ => false
  | .varDef _ => false

/-- The declarations the body of platform_message.h contributes to a
translation unit (the two #include lines pull in collaborator
declarations defined elsewhere and contribute nothing of their own). -/
def platformMessageDecls (lowPowerListening packetLink : Bool) : List CDecl :=
  [ .typeAlias "message_header_t" message_header_ty,
    .typeAlias "message_footer_t" message_footer_ty,
    .typeAlias "message_metadata_t" (message_metadata_ty lowPowerListening packetLink) ]

/-! ## Level 3: preprocessor model of the include guard -/

/-- The preprocessor state relevant to the file: whether the
PLATFORM_MESSAGE_H guard macro and the two feature flags are defined. -/
structure PPEnv : Type where
  platformMessageH : Bool
  lowPowerListening : Bool
  packetLink : Bool

/-- One textual inclusion of platform_message.h: if PLATFORM_MESSAGE_H is
already defined the guard skips the whole body and nothing is emitted;
otherwise the guard macro is defined and the three typedefs are emitted. -/
def processInclude (e : PPEnv) : PPEnv × List CDecl :=
  if e.platformMessageH then (e, [])
  else ({ e with platformMessageH := true },
        platformMessageDecls e.lowPowerListening e.packetLink)

/-! ## Level 2: value-level shallow embedding -/

/-- An untagged two-member C union, modelled as storage holding the bytes
of whichever member was written last. The constructor index is a modelling
device recording which member those bytes belong to; it corresponds to no
stored data in C (see claim C6: the C union carries no discriminant). -/
inductive Union2 (A B : Type) : Type where
  | fst : A → Union2 A B
  | snd : B → Union2 A B

/-- Writing the first member of a union overwrites the shared storage. -/
def Union2.writeFst {A B : Type} (a : A) (_ : Union2 A B) : Union2 A B := .fst a

/-- Writing the second member of a union overwrites the shared storage. -/
def Union2.writeSnd {A B : Type} (b : B) (_ : Union2 A B) : Union2 A B := .snd b

/-- Reading the first member: defined (returns the stored value) when the
first member is the one that was last written; reading the other member
reinterprets foreign bytes, which the model leaves undefined (none). -/
def Union2.readFst {A B : Type} : Union2 A B → Option A
  | .fst a => some a
  | .snd _ => none

/-- Reading the second member, symmetrically. -/
def Union2.readSnd {A B : Type} : Union2 A B → Option B
  | .fst _ => none
  | .snd b => some b

/-- Value-level message_header_t: an untagged union of the CC2520 packet
header and the serial packet header, parameterised by those collaborator
types. -/
def MessageHeaderV (CcHdr SeHdr : Type) : Type := Union2 CcHdr SeHdr

/-- Value-level message_footer_t: a one-member union, so its storage
always holds a cc2520packet_footer_t. -/
structure MessageFooterV (CcFtr : Type) : Type where
  cc2520 : CcFtr

/-- Value-level message_metadata_t, parameterised by the collaborator
types and by the two feature flags; a member gated by an undefined flag
occupies no storage (PUnit). -/
structure MessageMetadataV (CcM SeM LplM TsM LnkM FlgM : Type)
    (lowPowerListening packetLink : Bool) : Type where
  metaUnion : Union2 CcM SeM
  lpl_meta : cond lowPowerListening LplM PUnit
  ts_meta : TsM
  link_meta : cond packetLink LnkM PUnit
  flags_meta : FlgM

section MetaOps

variable {CcM SeM LplM TsM LnkM FlgM : Type} {lpl plink : Bool}

/-- Store into the cc2520_meta member of the anonymous union. -/
def MessageMetadataV.setCc2520Meta
    (m : MessageMetadataV CcM SeM LplM TsM LnkM FlgM lpl plink) (x : CcM) :
    MessageMetadataV CcM SeM LplM TsM LnkM FlgM lpl plink :=
  { m with metaUnion := m.metaUnion.writeFst x }

/-- Store into the serial_meta member of the anonymous union. -/
def MessageMetadataV.setSerialMeta
    (m : MessageMetadataV CcM SeM LplM TsM LnkM FlgM lpl plink) (x : SeM) :
    MessageMetadataV CcM SeM LplM TsM LnkM FlgM lpl plink :=
  { m with metaUnion := m.metaUnion.writeSnd x }

/-- Store into the ts_meta member. -/
def MessageMetadataV.setTsMeta
    (m : MessageMetadataV CcM SeM LplM TsM LnkM FlgM lpl plink) (x : TsM) :
    MessageMetadataV CcM SeM LplM TsM LnkM FlgM lpl plink :=
  { m with ts_meta := x }

/-- Store into the flags_meta member. -/
def MessageMetadataV.setFlagsMeta
    (m : MessageMetadataV CcM SeM LplM TsM LnkM FlgM lpl plink) (x : FlgM) :
    MessageMetadataV CcM SeM LplM TsM LnkM FlgM lpl plink :=
  { m with flags_meta := x }

end MetaOps

/-! ## Claim theorems -/

/-- Claim C1: for every combination of the LOW_POWER_LISTENING and
PACKET_LINK flags, message_metadata_t is a struct composed, in order, of
the anonymous cc2520_metadata_t/serial_metadata_t union, then lpl_meta
exactly when LOW_POWER_LISTENING is defined, then ts_meta always, then
link_meta exactly when PACKET_LINK is defined, then flags_meta always. -/
theorem c1_message_metadata_composition :
    (message_metadata_ty false false =
      .struct (.cons "" (.union (.cons "cc2520_meta" (.prim "cc2520_metadata_t")
          (.cons "serial_meta" (.prim "serial_metadata_t") .nil)))
        (.cons "ts_meta" (.prim "timestamp_metadata_t")
          (.cons "flags_meta" (.prim "flags_metadata_t") .nil)))) ∧
    (message_metadata_ty true false =
      .struct (.cons "" (.union (.cons "cc2520_meta" (.prim "cc2520_metadata_t")
          (.cons "serial_meta" (.prim "serial_metadata_t") .nil)))
        (.cons "lpl_meta" (.prim "lpl_metadata_t")
          (.cons "ts_meta" (.prim "timestamp_metadata_t")
            (.cons "flags_meta" (.prim "flags_metadata_t") .nil))))) ∧
    (message_metadata_ty false true =
      .struct (.cons "" (.union (.cons "cc2520_meta" (.prim "cc2520_metadata_t")
          (.cons "serial_meta" (.prim "serial_metadata_t") .nil)))
        (.cons "ts_meta" (.prim "timestamp_metadata_t")
          (.cons "link_meta" (.prim "link_metadata_t")
            (.cons "flags_meta" (.prim "flags_metadata_t") .nil))))) ∧
    (message_metadata_ty true true =
      .struct (.cons "" (.union (.cons "cc2520_meta" (.prim "cc2520_metadata_t")
          (.cons "serial_meta" (.prim "serial_metadata_t") .nil)))
        (.cons "lpl_meta" (.prim "lpl_metadata_t")
          (.cons "ts_meta" (.prim "timestamp_metadata_t")
            (.cons "link_meta" (.prim "link_metadata_t")
              (.cons "flags_meta" (.prim "flags_metadata_t") .nil)))))) :=
  ⟨rfl, rfl, rfl, rfl⟩

/-- Claim C2 counterexample: the claim asserts that every one of the four
feature metadata members, ts_meta included, is absent under some setting of
the compile-time flags; but ts_meta is a member of message_metadata_t under
all four settings of LOW_POWER_LISTENING and PACKET_LINK. -/
theorem c2_ts_meta_never_absent :
    ¬ (∃ lpl plink : Bool,
        "ts_meta" ∉ (message_metadata_ty lpl plink).memberNames) := by
  decide

/-- Claim C2 (amended): only lpl_meta and link_meta are feature-gated —
lpl_meta is a member exactly when LOW_POWER_LISTENING is defined and
link_meta exactly when PACKET_LINK is defined — while ts_meta and
flags_meta are members unconditionally. -/
theorem c2_feature_gating :
    ∀ lpl plink : Bool,
      (("lpl_meta" ∈ (message_metadata_ty lpl plink).memberNames) ↔ lpl = true) ∧
      (("link_meta" ∈ (message_metadata_ty lpl plink).memberNames) ↔ plink = true) ∧
      "ts_meta" ∈ (message_metadata_ty lpl plink).memberNames ∧
      "flags_meta" ∈ (message_metadata_ty lpl plink).memberNames := by
  decide

/-- Claim C3: message_header_t is a union with exactly the two
alternatives cc2520 (cc2520packet_header_t) and serial (serial_header_t),
and its size is exactly the larger of the two member sizes, hence at least
either one, for every assignment of sizes to the collaborator types. -/
theorem c3_message_header_union :
    (message_header_ty = .union (.cons "cc2520" (.prim "cc2520packet_header_t")
        (.cons "serial" (.prim "serial_header_t") .nil))) ∧
    ∀ env : String → Nat,
      sizeC env message_header_ty =
        Nat.max (env "cc2520packet_header_t") (env "serial_header_t") ∧
      env "cc2520packet_header_t" ≤ sizeC env message_header_ty ∧
      env "serial_header_t" ≤ sizeC env message_header_ty := by
  refine ⟨rfl, fun env => ?_⟩
  simp only [message_header_ty, sizeC, sizeMaxC, Nat.max_zero]
  exact ⟨trivial, Nat.le_max_left _ _, Nat.le_max_right _ _⟩

/-- Claim C4: for every assignment of sizes to the collaborator types and
every combination of the feature flags, message_header_t is at least as
large as each of its two members, message_footer_t at least as large as
its one member, and message_metadata_t at least as large as the sum of the
sizes of the members present under the chosen flags (the anonymous union
counting as one member at least as large as either metadata alternative). -/
theorem c4_sizes_cover_members :
    ∀ (env : String → Nat) (lpl plink : Bool),
      env "cc2520packet_header_t" ≤ sizeC env message_header_ty ∧
      env "serial_header_t" ≤ sizeC env message_header_ty ∧
      env "cc2520packet_footer_t" ≤ sizeC env message_footer_ty ∧
      env "cc2520_metadata_t" ≤ sizeC env meta_union_ty ∧
      env "serial_metadata_t" ≤ sizeC env meta_union_ty ∧
      sizeC env meta_union_ty
          + cond lpl (env "lpl_metadata_t") 0
          + env "timestamp_metadata_t"
          + cond plink (env "link_metadata_t") 0
          + env "flags_metadata_t"
        ≤ sizeC env (message_metadata_ty lpl plink) := by
  intro env lpl plink
  cases lpl <;> cases plink <;>
    simp only [message_header_ty, message_footer_ty, meta_union_ty,
      message_metadata_ty, consIf, if_true, if_false, cond_true, cond_false,
      sizeC, sizeMaxC, sizeSumC, Bool.false_eq_true, Bool.true_eq_false,
      Nat.max_zero] <;>
    refine ⟨Nat.le_max_left _ _, Nat.le_max_right _ _, ?_,
      Nat.le_max_left _ _, Nat.le_max_right _ _, ?_⟩ <;>
    omega

/-- Claim C5: message_footer_t is a union with exactly one member, cc2520
of type cc2520packet_footer_t; no serial footer alternative exists. -/
theorem c5_message_footer_single_member :
    (message_footer_ty = .union (.cons "cc2520" (.prim "cc2520packet_footer_t") .nil)) ∧
    message_footer_ty.memberNames = ["cc2520"] :=
  ⟨rfl, rfl⟩

/-- Claim C6: the header union has exactly the two transport members
cc2520 and serial and the anonymous metadata union exactly cc2520_meta and
serial_meta — no extra member recording which alternative is active — and,
for every flag combination, every declaration the file contributes is a
typedef, so no function, and in particular no runtime check on the active
member, exists in this file. -/
theorem c6_no_discriminant_tag :
    message_header_ty.memberNames = ["cc2520", "serial"] ∧
    meta_union_ty.memberNames = ["cc2520_meta", "serial_meta"] ∧
    ∀ lpl plink : Bool,
      (platformMessageDecls lpl plink).all CDecl.isTypeAlias = true := by
  refine ⟨rfl, rfl, fun lpl plink => rfl⟩

/-- Claim C7: for every flag combination, the declarations the file body
contributes on first inclusion are exactly the three typedefs
message_header_t, message_footer_t and message_metadata_t — three
declarations, all typedefs, hence no function and no mutable object. -/
theorem c7_only_three_typedefs :
    ∀ lpl plink : Bool,
      (processInclude ⟨false, lpl, plink⟩).2 =
        [ .typeAlias "message_header_t" message_header_ty,
          .typeAlias "message_footer_t" message_footer_ty,
          .typeAlias "message_metadata_t" (message_metadata_ty lpl plink) ] ∧
      (processInclude ⟨false, lpl, plink⟩).2.length = 3 ∧
      ((processInclude ⟨false, lpl, plink⟩).2.all CDecl.isTypeAlias) = true := by
  exact fun lpl plink => ⟨rfl, rfl, rfl⟩

/-- Claim C8: in message_metadata_t, the anonymous union overlays only its
own two members — storing through cc2520_meta or serial_meta leaves
ts_meta, flags_meta, lpl_meta and link_meta unchanged, and storing into
ts_meta or flags_meta leaves the union storage unchanged — for every
choice of collaborator types, flags and metadata value. -/
theorem c8_union_overlays_only_union_members :
    ∀ (CcM SeM LplM TsM LnkM FlgM : Type) (lpl plink : Bool)
      (m : MessageMetadataV CcM SeM LplM TsM LnkM FlgM lpl plink)
      (x : CcM) (y : SeM) (t : TsM) (f : FlgM),
      ((m.setCc2520Meta x).ts_meta = m.ts_meta ∧
       (m.setCc2520Meta x).flags_meta = m.flags_meta ∧
       (m.setCc2520Meta x).lpl_meta = m.lpl_meta ∧
       (m.setCc2520Meta x).link_meta = m.link_meta) ∧
      ((m.setSerialMeta y).ts_meta = m.ts_meta ∧
       (m.setSerialMeta y).flags_meta = m.flags_meta ∧
       (m.setSerialMeta y).lpl_meta = m.lpl_meta ∧
       (m.setSerialMeta y).link_meta = m.link_meta) ∧
      (m.setTsMeta t).metaUnion = m.metaUnion ∧
      (m.setFlagsMeta f).metaUnion = m.metaUnion := by
  intros
  exact ⟨⟨rfl, rfl, rfl, rfl⟩, ⟨rfl, rfl, rfl, rfl⟩, rfl, rfl⟩

/-- Claim C9: storing a value into a union member and reading the same
member back returns the stored value, for the cc2520 and serial members of
message_header_t, the single cc2520 member of message_footer_t, and the
cc2520_meta and serial_meta members of the metadata union, for every
choice of collaborator types and every prior union content. -/
theorem c9_store_then_load_same_member :
    ∀ (CcH SeH CcF CcM SeM LplM TsM LnkM FlgM : Type) (lpl plink : Bool)
      (u : MessageHeaderV CcH SeH) (hc : CcH) (hs : SeH) (fc : CcF)
      (m : MessageMetadataV CcM SeM LplM TsM LnkM FlgM lpl plink)
      (mc : CcM) (ms : SeM),
      (Union2.readFst (Union2.writeFst hc u) = some hc) ∧
      (Union2.readSnd (Union2.writeSnd hs u) = some hs) ∧
      ((MessageFooterV.mk fc).cc2520 = fc) ∧
      ((m.setCc2520Meta mc).metaUnion.readFst = some mc) ∧
      ((m.setSerialMeta ms).metaUnion.readSnd = some ms) := by
  intros
  exact ⟨rfl, rfl, rfl, rfl, rfl⟩

/-- Claim C10: inclusion is idempotent — after one inclusion the
PLATFORM_MESSAGE_H guard is defined, a second inclusion of the file emits
no declarations and leaves the preprocessor state unchanged, and the
declarations emitted by two successive inclusions are exactly those
emitted by one — starting from every preprocessor state. -/
theorem c10_include_guard_idempotent :
    ∀ e : PPEnv,
      (processInclude e).1.platformMessageH = true ∧
      (processInclude (processInclude e).1).2 = [] ∧
      (processInclude e).2 ++ (processInclude (processInclude e).1).2 =
        (processInclude e).2 ∧
      (processInclude (processInclude e).1).1 = (processInclude e).1 := by
  intro e
  obtain ⟨g, l, p⟩ := e
  cases g <;> simp [processInclude]
